import Mathlib

/-!
Shallow embedding of the pipeline-orchestration and error-handling core of
the `ai-seo-mass-engine` repository, together with theorems settling the
frozen claims about it.

Embedded source files:
* `packages/image-gen/src/index.ts` — the bundled error-handler module
  (`AppError`, `classifyError`, `getErrorSeverity`, `isRetryable`,
  `withRetry`, `setupGlobalErrorHandlers`, and the error factories).
* `packages/orchestrator/src/index.ts` — `SEOPipelineOrchestrator`
  (`runStage`, `execute`, `generateReport`, and the per-stage handlers
  whose shared shape is the `enabled` guard followed by external work).

Machine integers are `Nat` (delays and status codes are small non-negative
integers in the source); JavaScript exceptions are `Except`; `undefined`
fields are `Option`.
-/

namespace SeoSpy

/-- The closed category enumeration `ErrorCategory` of the source. -/
inductive ErrorCategory
  | network
  | api
  | database
  | validation
  | authentication
  | rate_limit
  | timeout
  | internal
  | unknown
deriving DecidableEq, Repr

/-- The closed severity enumeration `ErrorSeverity` of the source. -/
inductive ErrorSeverity
  | low
  | medium
  | high
  | critical
deriving DecidableEq, Repr

/-- Character-list prefix test, used to embed JavaScript
`String.prototype.includes`. -/
def charsPrefixAt : List Char → List Char → Bool
  | [], _ => true
  | _ :: _, [] => false
  | a :: as, b :: bs => a == b && charsPrefixAt as bs

/-- Does `needle` occur as a contiguous run inside the character list? -/
def charsOccur (needle : List Char) : List Char → Bool
  | [] => needle.isEmpty
  | b :: bs => charsPrefixAt needle (b :: bs) || charsOccur needle bs

/-- Embedding of JavaScript `hay.includes(needle)` for strings. -/
def strIncludes (hay needle : String) : Bool :=
  charsOccur needle.toList hay.toList

/-- Embedding of JavaScript `s.toLowerCase()` (character-wise lowering). -/
def strLower (s : String) : String :=
  String.mk (s.data.map Char.toLower)

/-- The optional-field bag passed to the `AppError` constructor
(`ErrorMetadata` in the source; the open key/value part carries no logic
and is not modelled). -/
structure ErrorMetadata where
  category : Option ErrorCategory
  severity : Option ErrorSeverity
  code : Option String
  retryable : Option Bool
  statusCode : Option Nat
deriving DecidableEq, Repr

/-- A metadata bag with every field absent (`{}` at a call site). -/
def ErrorMetadata.empty : ErrorMetadata :=
  { category := none, severity := none, code := none, retryable := none,
    statusCode := none }

/-- `AppError.isRetryableByDefault`: membership of the category in the
fixed retryable list. -/
def isRetryableByDefault (category : ErrorCategory) : Bool :=
  [ErrorCategory.network, .api, .database, .rate_limit, .timeout].contains category

/-- The structured error class `AppError` of the source (message, category,
severity, optional code and status code, retryability). -/
structure AppError where
  message : String
  category : ErrorCategory
  severity : ErrorSeverity
  code : Option String
  statusCode : Option Nat
  retryable : Bool
deriving DecidableEq, Repr

/-- The `AppError` constructor: `category` defaults to `unknown`
(`metadata.category || 'unknown'`), `severity` defaults to `medium`,
`retryable` defaults to `isRetryableByDefault(category)`
(`metadata.retryable ?? ...`). -/
def AppError.make (message : String) (metadata : ErrorMetadata) : AppError :=
  let category := metadata.category.getD .unknown
  { message := message
    category := category
    severity := metadata.severity.getD .medium
    code := metadata.code
    statusCode := metadata.statusCode
    retryable := metadata.retryable.getD (isRetryableByDefault category) }

/-- A raw (not already structured) JavaScript `Error`: a name and a
message. -/
structure RawError where
  name : String
  message : String
deriving DecidableEq, Repr

/-- A value reaching the error-handling code: either a plain `Error` or an
`AppError` (the `instanceof AppError` distinction). -/
inductive JsError
  | raw (e : RawError)
  | app (e : AppError)
deriving DecidableEq, Repr

/-- `classifyError` from the source: an already-structured error keeps its
category; otherwise ordered substring heuristics over the lower-cased name
and message, falling back to `unknown`. -/
def classifyError (error : JsError) : ErrorCategory :=
  match error with
  | .app a => a.category
  | .raw r =>
    let message := strLower r.message
    let name := strLower r.name
    if strIncludes name "network" || strIncludes name "econnrefused" ||
        strIncludes name "etimedout" then .network
    else if strIncludes name "timeout" || strIncludes message "timeout" then .timeout
    else if strIncludes message "rate limit" || strIncludes message "429" ||
        strIncludes message "too many requests" then .rate_limit
    else if strIncludes name "api" || strIncludes message "api key" ||
        strIncludes message "api error" then .api
    else if strIncludes name "auth" || strIncludes name "unauthorized" ||
        strIncludes message "401" || strIncludes message "authentication" then .authentication
    else if strIncludes name "database" || strIncludes name "sql" ||
        strIncludes message "database" || strIncludes message "connection" then .database
    else if strIncludes name "validation" || strIncludes name "invalid" ||
        strIncludes message "validation" || strIncludes message "invalid" then .validation
    else .unknown

/-- `getErrorSeverity` from the source; the `statusCode && statusCode >= 500`
truthiness guard is the explicit `c ≠ 0` conjunct. -/
def getErrorSeverity (category : ErrorCategory) (statusCode : Option Nat) : ErrorSeverity :=
  if category = .internal ∨ category = .authentication then .critical
  else if statusCode.elim false (fun c => decide (c ≠ 0) && decide (500 ≤ c)) then .high
  else if category = .api ∨ category = .database ∨ category = .timeout then .medium
  else .low

/-- The client-error guard of `isRetryable`:
`statusCode && statusCode >= 400 && statusCode < 500 && statusCode !== 429`. -/
def isClientError (statusCode : Option Nat) : Bool :=
  match statusCode with
  | none => false
  | some c => decide (c ≠ 0) && decide (400 ≤ c) && decide (c < 500) && decide (c ≠ 429)

/-- `isRetryable` from the source: client errors other than 429 are never
retryable; otherwise membership in the fixed retryable category list. -/
def isRetryable (category : ErrorCategory) (statusCode : Option Nat) : Bool :=
  if isClientError statusCode then false
  else [ErrorCategory.network, .api, .database, .rate_limit, .timeout].contains category

/-- Left-biased choice between optional fields, embedding the JavaScript
object-literal spread `{ fixed..., ...metadata }`: a field present in
`metadata` wins over the factory's fixed value. -/
def orOpt {α : Type} (override fixed : Option α) : Option α :=
  match override with
  | some x => some x
  | none => fixed

/-- `createNetworkError`: fixed `category: 'network', severity: 'medium',
retryable: true`, then the caller's metadata spread on top. -/
def createNetworkError (message : String) (metadata : ErrorMetadata) : AppError :=
  AppError.make message
    { category := orOpt metadata.category (some .network)
      severity := orOpt metadata.severity (some .medium)
      code := metadata.code
      retryable := orOpt metadata.retryable (some true)
      statusCode := metadata.statusCode }

/-- `createApiError`: fixed `category: 'api'`, severity via
`getErrorSeverity('api', statusCode)`, retryability via
`isRetryable('api', statusCode)`, the status code itself, then the
caller's metadata spread on top. -/
def createApiError (message : String) (statusCode : Option Nat)
    (metadata : ErrorMetadata) : AppError :=
  AppError.make message
    { category := orOpt metadata.category (some .api)
      severity := orOpt metadata.severity (some (getErrorSeverity .api statusCode))
      code := metadata.code
      retryable := orOpt metadata.retryable (some (isRetryable .api statusCode))
      statusCode := orOpt metadata.statusCode statusCode }

/-- `createDatabaseError`: fixed `category: 'database', severity: 'high',
retryable: true`. -/
def createDatabaseError (message : String) (metadata : ErrorMetadata) : AppError :=
  AppError.make message
    { category := orOpt metadata.category (some .database)
      severity := orOpt metadata.severity (some .high)
      code := metadata.code
      retryable := orOpt metadata.retryable (some true)
      statusCode := metadata.statusCode }

/-- `createValidationError`: fixed `category: 'validation', severity: 'low',
retryable: false`. -/
def createValidationError (message : String) (metadata : ErrorMetadata) : AppError :=
  AppError.make message
    { category := orOpt metadata.category (some .validation)
      severity := orOpt metadata.severity (some .low)
      code := metadata.code
      retryable := orOpt metadata.retryable (some false)
      statusCode := metadata.statusCode }

/-- `createAuthError`: fixed `category: 'authentication',
severity: 'critical', retryable: false`. -/
def createAuthError (message : String) (metadata : ErrorMetadata) : AppError :=
  AppError.make message
    { category := orOpt metadata.category (some .authentication)
      severity := orOpt metadata.severity (some .critical)
      code := metadata.code
      retryable := orOpt metadata.retryable (some false)
      statusCode := metadata.statusCode }

/-- `createRateLimitError`: fixed `category: 'rate_limit',
severity: 'medium', retryable: true, code: 'RATE_LIMIT_EXCEEDED'` (the
`retryAfter` entry only feeds the open metadata map and carries no logic). -/
def createRateLimitError (message : String) (metadata : ErrorMetadata) : AppError :=
  AppError.make message
    { category := orOpt metadata.category (some .rate_limit)
      severity := orOpt metadata.severity (some .medium)
      code := orOpt metadata.code (some "RATE_LIMIT_EXCEEDED")
      retryable := orOpt metadata.retryable (some true)
      statusCode := metadata.statusCode }

/-- `createTimeoutError`: fixed `category: 'timeout', severity: 'medium',
retryable: true`. -/
def createTimeoutError (message : String) (metadata : ErrorMetadata) : AppError :=
  AppError.make message
    { category := orOpt metadata.category (some .timeout)
      severity := orOpt metadata.severity (some .medium)
      code := metadata.code
      retryable := orOpt metadata.retryable (some true)
      statusCode := metadata.statusCode }

/-- Observable effect of one global hook invocation: what was logged at
`fatal` level and whether `process.exit` was called (with which status). -/
structure HookAction where
  loggedFatal : Bool
  loggedCategory : Option ErrorCategory
  loggedSeverity : Option ErrorSeverity
  exited : Option Nat
deriving DecidableEq, Repr

/-- The `uncaughtException` hook installed by `setupGlobalErrorHandlers`:
classify, derive severity (no status code available), log fatal with both
attached, and `process.exit(1)` exactly when the severity is critical. -/
def onUncaughtException (error : JsError) : HookAction :=
  let category := classifyError error
  let severity := getErrorSeverity category none
  { loggedFatal := true
    loggedCategory := some category
    loggedSeverity := some severity
    exited := if severity = .critical then some 1 else none }

/-- The `unhandledRejection` hook installed by `setupGlobalErrorHandlers`:
classify and log fatal with the category attached; no severity is derived
and the process is never exited on this hook. -/
def onUnhandledRejection (reason : JsError) : HookAction :=
  let category := classifyError reason
  { loggedFatal := true
    loggedCategory := some category
    loggedSeverity := none
    exited := none }

/-- `RetryOptions` of the source (the `onRetry` observer is pure
notification and carries no control flow). -/
structure RetryOptions where
  maxAttempts : Nat
  initialDelay : Nat
  maxDelay : Nat
  backoffFactor : Nat
  retryableErrors : Option (List ErrorCategory)
deriving Repr

/-- The source's defaults: `maxAttempts = 3`, `initialDelay = 1000`,
`maxDelay = 30000`, `backoffFactor = 2`, no allow-list. -/
def RetryOptions.defaults : RetryOptions :=
  { maxAttempts := 3, initialDelay := 1000, maxDelay := 30000,
    backoffFactor := 2, retryableErrors := none }

/-- The wrapping step inside `withRetry`'s catch block:
`lastError instanceof AppError ? lastError : new AppError(lastError.message, { category })`. -/
def toAppError (e : JsError) : AppError :=
  match e with
  | .app a => a
  | .raw r =>
    AppError.make r.message
      { ErrorMetadata.empty with category := some (classifyError (.raw r)) }

/-- The retry decision of `withRetry`:
`appError.retryable && (!retryableErrors || retryableErrors.includes(category))`. -/
def retryDecision (e : JsError) (retryableErrors : Option (List ErrorCategory)) : Bool :=
  (toAppError e).retryable &&
    (match retryableErrors with
     | none => true
     | some l => l.contains (classifyError e))

/-- Observable trace of one `withRetry` call: how many times the operation
ran, the backoff delays slept, and the outcome (`Except.error none` is the
source's unreachable trailing `throw lastError`). -/
structure RetryTrace (T : Type) where
  invocations : Nat
  delays : List Nat
  result : Except (Option AppError) T
deriving Repr

/-- The `for (attempt = 1; attempt <= maxAttempts; attempt++)` loop of
`withRetry`, with the remaining iteration budget as the recursion measure;
`fn n` is the operation's outcome on its `n`-th invocation. -/
def withRetryLoop (T : Type) (fn : Nat → Except JsError T) (o : RetryOptions) :
    Nat → Nat → RetryTrace T
  | _, 0 => { invocations := 0, delays := [], result := .error none }
  | attempt, fuel + 1 =>
    match fn attempt with
    | .ok v => { invocations := 1, delays := [], result := .ok v }
    | .error e =>
      let appError := toAppError e
      if !retryDecision e o.retryableErrors || decide (o.maxAttempts ≤ attempt) then
        { invocations := 1, delays := [], result := .error (some appError) }
      else
        let delay := min (o.initialDelay * o.backoffFactor ^ (attempt - 1)) o.maxDelay
        let rest := withRetryLoop T fn o (attempt + 1) fuel
        { invocations := rest.invocations + 1
          delays := delay :: rest.delays
          result := rest.result }

/-- `withRetry`: run the loop from attempt 1; the loop body iterates at most
`maxAttempts` times because the catch block re-raises once
`attempt >= maxAttempts`. -/
def withRetry (T : Type) (fn : Nat → Except JsError T) (o : RetryOptions) : RetryTrace T :=
  withRetryLoop T fn o 1 o.maxAttempts

/-- Decidable equality of handler outcomes (`Except` carries the thrown
message). -/
instance exceptDecEq {ε α : Type} [DecidableEq ε] [DecidableEq α] :
    DecidableEq (Except ε α) := fun a b =>
  match a, b with
  | .ok x, .ok y =>
    if h : x = y then .isTrue (by rw [h]) else .isFalse (by intro hc; cases hc; exact h rfl)
  | .error x, .error y =>
    if h : x = y then .isTrue (by rw [h]) else .isFalse (by intro hc; cases hc; exact h rfl)
  | .ok _, .error _ => .isFalse (by intro hc; cases hc)
  | .error _, .ok _ => .isFalse (by intro hc; cases hc)

/-- One orchestrated stage: its name, its `enabled` config flag, the
outcome of the handler body past the `enabled` guard (the external calls,
which either complete or throw a message), and the wall time that body
takes. Every handler of the source (`runKeywordScraping`,
`runArticleGeneration`, `runSiteBuild`, `runDeployment`,
`runSitemapSubmission`) has this shape: `if (!enabled) return;` then
external work that may throw. -/
structure StageSpec where
  name : String
  enabled : Bool
  work : Except String Unit
  workDuration : Nat
deriving DecidableEq, Repr

/-- The status field of a `PipelineResult` in the source:
`'success' | 'failed' | 'skipped'`. -/
inductive StageStatus
  | success
  | failed
  | skipped
deriving DecidableEq, Repr

/-- `PipelineResult` of the source: stage name, status, duration, optional
error message. -/
structure PipelineResult where
  stage : String
  status : StageStatus
  duration : Nat
  error : Option String
deriving DecidableEq, Repr

/-- `SEOPipelineOrchestrator.runStage`: run the handler (a disabled stage's
guard returns at once, taking no time and making no external call); on
completion push a `success` record with the elapsed duration, on a throw
push a `failed` record carrying the error's message and re-raise it. The
second component is the re-raised message (`none` when nothing was
thrown). -/
def runStage (s : StageSpec) : PipelineResult × Option String :=
  let outcome := if s.enabled then s.work else Except.ok ()
  let dur := if s.enabled then s.workDuration else 0
  match outcome with
  | .ok _ => ({ stage := s.name, status := .success, duration := dur, error := none }, none)
  | .error msg =>
    ({ stage := s.name, status := .failed, duration := dur, error := some msg }, some msg)

/-- Accumulated observable state of `execute`'s stage loop: the pushed
`results` list, the names of stages whose handler body (the external call)
actually ran, and the escaped error, if any. -/
structure LoopState where
  results : List PipelineResult
  invoked : List String
  raised : Option String
deriving DecidableEq, Repr

/-- The stage loop of `SEOPipelineOrchestrator.execute`: each stage goes
through `runStage`; a re-raised error propagates immediately, ending the
loop with no record of any later stage. -/
def executeStages : List StageSpec → LoopState
  | [] => { results := [], invoked := [], raised := none }
  | s :: rest =>
    if ((runStage s).2).isSome then
      { results := [(runStage s).1]
        invoked := if s.enabled then [s.name] else []
        raised := (runStage s).2 }
    else
      let st := executeStages rest
      { results := (runStage s).1 :: st.results
        invoked := (if s.enabled then [s.name] else []) ++ st.invoked
        raised := st.raised }

/-- The report record written by `generateReport`: timestamp, total
duration, the per-stage results, and the pipeline config snapshot. -/
structure PipelineReport where
  timestamp : Nat
  totalDuration : Nat
  stages : List PipelineResult
  config : List StageSpec
deriving DecidableEq, Repr

/-- Everything observable about one `execute` call: the result list, the
stages whose external work ran, the report handed to the sink (if any),
and the error that escaped `execute` (if any). -/
structure ExecOutcome where
  results : List PipelineResult
  invoked : List String
  report : Option PipelineReport
  raised : Option String
deriving DecidableEq, Repr

/-- `SEOPipelineOrchestrator.execute`: run the stages in order; an error
thrown by `runStage` escapes `execute` before the `generateReport` call,
so only a run with no failed stage builds and persists a report. The total
duration is the run's elapsed wall time, i.e. the time the stage bodies
took. -/
def execute (timestamp : Nat) (stages : List StageSpec) : ExecOutcome :=
  let st := executeStages stages
  match st.raised with
  | some m =>
    { results := st.results, invoked := st.invoked, report := none, raised := some m }
  | none =>
    { results := st.results
      invoked := st.invoked
      report := some
        { timestamp := timestamp
          totalDuration := (st.results.map (fun r => r.duration)).sum
          stages := st.results
          config := stages }
      raised := none }

/-- The ordered check table of the classification heuristics, as the spec
states it: one boolean test per category, first match wins, in the order
network, timeout, rate_limit, api, authentication, database, validation. -/
def classifyChecks (name message : String) : List (Bool × ErrorCategory) :=
  [ (strIncludes name "network" || strIncludes name "econnrefused" ||
      strIncludes name "etimedout", .network),
    (strIncludes name "timeout" || strIncludes message "timeout", .timeout),
    (strIncludes message "rate limit" || strIncludes message "429" ||
      strIncludes message "too many requests", .rate_limit),
    (strIncludes name "api" || strIncludes message "api key" ||
      strIncludes message "api error", .api),
    (strIncludes name "auth" || strIncludes name "unauthorized" ||
      strIncludes message "401" || strIncludes message "authentication", .authentication),
    (strIncludes name "database" || strIncludes name "sql" ||
      strIncludes message "database" || strIncludes message "connection", .database),
    (strIncludes name "validation" || strIncludes name "invalid" ||
      strIncludes message "validation" || strIncludes message "invalid", .validation) ]

/-- First category whose test holds, `unknown` when none does. -/
def firstMatch : List (Bool × ErrorCategory) → ErrorCategory
  | [] => .unknown
  | (b, c) :: rest => if b then c else firstMatch rest

/-- Claim C6: `classifyError` keeps the category of an already-structured
error unchanged (idempotence), and on a plain error returns the first
match of the ordered check table (network, timeout, rate_limit, api,
authentication, database, validation) over the lower-cased name and
message, falling back to `unknown`. -/
theorem classifyError_spec (a : AppError) (r : RawError) :
    classifyError (JsError.app a) = a.category ∧
    classifyError (JsError.raw r) =
      firstMatch (classifyChecks (strLower r.name) (strLower r.message)) :=
  ⟨rfl, rfl⟩

/-- Claim C7: `isRetryable` returns `false` for every status code in
`[400, 500)` other than 429 regardless of category, and otherwise returns
`true` exactly for the categories network, api, database, rate_limit,
timeout. -/
theorem isRetryable_table (category : ErrorCategory) (statusCode : Option Nat) :
    (∀ c, statusCode = some c → 400 ≤ c → c < 500 → c ≠ 429 →
      isRetryable category statusCode = false) ∧
    ((∀ c, statusCode = some c → ¬(400 ≤ c ∧ c < 500 ∧ c ≠ 429)) →
      (isRetryable category statusCode = true ↔
        (category = .network ∨ category = .api ∨ category = .database ∨
          category = .rate_limit ∨ category = .timeout))) := by
  constructor
  · intro c hsc h1 h2 h3
    subst hsc
    have hc : isClientError (some c) = true := by
      simp only [isClientError, Bool.and_eq_true, decide_eq_true_eq]
      omega
    simp [isRetryable, hc]
  · intro hno
    have hc : isClientError statusCode = false := by
      cases statusCode with
      | none => rfl
      | some c =>
        have h := hno c rfl
        apply Bool.eq_false_iff.mpr
        intro hcontra
        simp only [isClientError, Bool.and_eq_true, decide_eq_true_eq] at hcontra
        exact h ⟨hcontra.1.1.2, hcontra.1.2, hcontra.2⟩
    simp only [isRetryable, hc, Bool.false_eq_true, if_false]
    cases category <;> decide

/-- Witness for C7: a 404 api error is not retryable, a 503 network error
is, and a validation error with no status code is not. -/
theorem isRetryable_table_witness :
    isRetryable .api (some 404) = false ∧ isRetryable .network (some 503) = true ∧
    isRetryable .validation none = false := by
  refine ⟨(isRetryable_table .api (some 404)).1 404 rfl (by omega) (by omega) (by omega),
    ?_, ?_⟩
  · exact ((isRetryable_table .network (some 503)).2
      (fun c hc => by cases hc; omega)).mpr (Or.inl rfl)
  · have h := (isRetryable_table .validation none).2 (fun c hc => by cases hc)
    have hnot : ¬(ErrorCategory.validation = .network ∨ ErrorCategory.validation = .api ∨
        ErrorCategory.validation = .database ∨ ErrorCategory.validation = .rate_limit ∨
        ErrorCategory.validation = .timeout) := by decide
    exact Bool.eq_false_iff.mpr (fun ht => hnot (h.mp ht))

/-- Counterexample for C8: the network factory hard-codes severity
`medium`, while `severityFor(network, none)` per the severity rules is
`low`; so a factory-built error need not carry the computed severity. -/
theorem factories_severity_cex :
    (createNetworkError "connection refused" ErrorMetadata.empty).severity =
      ErrorSeverity.medium ∧
    getErrorSeverity (createNetworkError "connection refused" ErrorMetadata.empty).category
      (createNetworkError "connection refused" ErrorMetadata.empty).statusCode =
      ErrorSeverity.low := by
  constructor <;> rfl

/-- Claim C8 as amended: with no overrides each factory fixes the category
to its own name, but the severities are the hard-coded ones of the source:
network `medium`, database `high`, rate_limit `medium`, while only the api
factory computes `getErrorSeverity('api', statusCode)` and validation /
authentication / timeout happen to agree with the computed values (`low`,
`critical`, `medium`). -/
theorem factories_category_severity (msg : String) (sc : Option Nat) :
    ((createNetworkError msg ErrorMetadata.empty).category = .network ∧
      (createNetworkError msg ErrorMetadata.empty).severity = .medium) ∧
    ((createApiError msg sc ErrorMetadata.empty).category = .api ∧
      (createApiError msg sc ErrorMetadata.empty).severity = getErrorSeverity .api sc) ∧
    ((createDatabaseError msg ErrorMetadata.empty).category = .database ∧
      (createDatabaseError msg ErrorMetadata.empty).severity = .high) ∧
    ((createValidationError msg ErrorMetadata.empty).category = .validation ∧
      (createValidationError msg ErrorMetadata.empty).severity = .low) ∧
    ((createAuthError msg ErrorMetadata.empty).category = .authentication ∧
      (createAuthError msg ErrorMetadata.empty).severity = .critical) ∧
    ((createRateLimitError msg ErrorMetadata.empty).category = .rate_limit ∧
      (createRateLimitError msg ErrorMetadata.empty).severity = .medium) ∧
    ((createTimeoutError msg ErrorMetadata.empty).category = .timeout ∧
      (createTimeoutError msg ErrorMetadata.empty).severity = .medium) :=
  ⟨⟨rfl, rfl⟩, ⟨rfl, rfl⟩, ⟨rfl, rfl⟩, ⟨rfl, rfl⟩, ⟨rfl, rfl⟩, ⟨rfl, rfl⟩, ⟨rfl, rfl⟩⟩

/-- Counterexample for C9: an unhandled rejection whose error classifies as
`authentication` has derived severity `critical`, yet the rejection hook
never calls `process.exit` — the "terminate iff critical" contract only
holds on the exception hook. -/
theorem supervisor_rejection_cex :
    getErrorSeverity (classifyError (JsError.raw ⟨"AuthError", "token rejected"⟩)) none =
      ErrorSeverity.critical ∧
    (onUnhandledRejection (JsError.raw ⟨"AuthError", "token rejected"⟩)).exited = none ∧
    (onUnhandledRejection (JsError.raw ⟨"AuthError", "token rejected"⟩)).loggedFatal = true := by
  refine ⟨?_, rfl, rfl⟩
  rfl

/-- Claim C9 as amended: the uncaught-exception hook classifies, logs fatal
with category and severity, and exits with status 1 exactly when the
derived severity is critical; the unhandled-rejection hook classifies and
logs fatal with the category only and never terminates the process,
whatever the severity. -/
theorem supervisor_exit_policy (e : JsError) :
    (onUncaughtException e).loggedFatal = true ∧
    (onUncaughtException e).loggedCategory = some (classifyError e) ∧
    (onUncaughtException e).loggedSeverity =
      some (getErrorSeverity (classifyError e) none) ∧
    ((onUncaughtException e).exited = some 1 ↔
      getErrorSeverity (classifyError e) none = .critical) ∧
    (onUnhandledRejection e).loggedFatal = true ∧
    (onUnhandledRejection e).loggedCategory = some (classifyError e) ∧
    (onUnhandledRejection e).exited = none := by
  refine ⟨rfl, rfl, rfl, ?_, rfl, rfl, rfl⟩
  unfold onUncaughtException
  by_cases h : getErrorSeverity (classifyError e) none = .critical
  · simp [h]
  · simp [h]

/-- Witness for C9 (amended): a network-classified exception does not exit,
an authentication-classified exception exits with status 1. -/
theorem supervisor_exit_policy_witness :
    (onUncaughtException (JsError.raw ⟨"NetworkError", "connect ECONNREFUSED"⟩)).exited =
      none ∧
    (onUncaughtException (JsError.raw ⟨"AuthError", "token rejected"⟩)).exited = some 1 := by
  refine ⟨by decide, ?_⟩
  exact (supervisor_exit_policy (JsError.raw ⟨"AuthError", "token rejected"⟩)).2.2.2.1.mpr
    (by decide)

/-- Claim C10: a non-structured failure inside `withRetry` is rebuilt from
only its message and classified category — the rebuilt error carries no
status code and its retryability is the category default, never the
status-code rule — so the retry decision is exactly: default-retryable
category, and in the allow-list when one is given. -/
theorem withRetry_rawErrorDecision (r : RawError) (allow : Option (List ErrorCategory)) :
    (toAppError (JsError.raw r)).message = r.message ∧
    (toAppError (JsError.raw r)).category = classifyError (JsError.raw r) ∧
    (toAppError (JsError.raw r)).statusCode = none ∧
    (toAppError (JsError.raw r)).retryable =
      isRetryableByDefault (classifyError (JsError.raw r)) ∧
    retryDecision (JsError.raw r) allow =
      (isRetryableByDefault (classifyError (JsError.raw r)) &&
        (match allow with
         | none => true
         | some l => l.contains (classifyError (JsError.raw r)))) :=
  ⟨rfl, rfl, rfl, rfl, rfl⟩

/-- Helper: when the operation fails on every invocation with one fixed
retryable error, the loop consumes its whole remaining budget, sleeping
the capped exponential delays of the attempts it retries after, and
finally re-raises the wrapped error. -/
theorem withRetryLoop_allFail (T : Type) (fn : Nat → Except JsError T) (e : JsError)
    (o : RetryOptions) (hfail : ∀ n, fn n = Except.error e)
    (hret : retryDecision e o.retryableErrors = true) :
    ∀ fuel attempt, 1 ≤ fuel → 1 ≤ attempt → attempt + fuel = o.maxAttempts + 1 →
      withRetryLoop T fn o attempt fuel =
        { invocations := fuel
          delays := (List.range' (attempt - 1) (fuel - 1)).map
            (fun k => min (o.initialDelay * o.backoffFactor ^ k) o.maxDelay)
          result := Except.error (some (toAppError e)) } := by
  intro fuel
  induction fuel with
  | zero => intro attempt h1 _ _; exact absurd h1 (by omega)
  | succ f ih =>
    intro attempt _ hatt hsum
    simp only [withRetryLoop, hfail attempt, hret, Bool.not_true, Bool.false_or]
    by_cases hA : o.maxAttempts ≤ attempt
    · have hf0 : f = 0 := by omega
      subst hf0
      simp [hA]
    · have hrec := ih (attempt + 1) (by omega) (by omega) (by omega)
      simp only [hA, decide_eq_true_eq, if_false, decide_eq_false_iff_not,
        not_false_eq_true, hrec]
      have hstep : List.range' (attempt - 1) (f + 1 - 1) =
          (attempt - 1) :: List.range' (attempt + 1 - 1) (f - 1) := by
        have h1 : f + 1 - 1 = (f - 1) + 1 := by omega
        have h2 : attempt - 1 + 1 = attempt + 1 - 1 := by omega
        rw [h1, List.range'_succ, h2]
      rw [hstep]
      simp

/-- Claim C4: with an always-failing operation whose error passes the
retry decision, `withRetry` with `maxAttempts = N ≥ 1` invokes the
operation exactly `N` times and then raises the wrapped structured error;
with `maxAttempts = 1` there is a single try and no delay. -/
theorem withRetry_exhausts_attempts (T : Type) (fn : Nat → Except JsError T)
    (e : JsError) (o : RetryOptions) (hN : 1 ≤ o.maxAttempts)
    (hfail : ∀ n, fn n = Except.error e)
    (hret : retryDecision e o.retryableErrors = true) :
    (withRetry T fn o).invocations = o.maxAttempts ∧
    (withRetry T fn o).result = Except.error (some (toAppError e)) ∧
    (o.maxAttempts = 1 → (withRetry T fn o).delays = []) := by
  have h := withRetryLoop_allFail T fn e o hfail hret o.maxAttempts 1 hN le_rfl
    (by omega)
  unfold withRetry
  rw [h]
  exact ⟨rfl, rfl, fun h1 => by simp [h1]⟩

/-- Witness for C4: a raw network error that always recurs exhausts all 7
configured attempts, and a 1-attempt budget produces no delay. -/
theorem withRetry_exhausts_attempts_witness :
    (withRetry Nat (fun _ => Except.error (JsError.raw ⟨"NetworkError", "connect ECONNREFUSED"⟩))
        { maxAttempts := 7, initialDelay := 1000, maxDelay := 5000,
          backoffFactor := 2, retryableErrors := none }).invocations = 7 ∧
    (withRetry Nat (fun _ => Except.error (JsError.raw ⟨"NetworkError", "connect ECONNREFUSED"⟩))
        { maxAttempts := 1, initialDelay := 1000, maxDelay := 5000,
          backoffFactor := 2, retryableErrors := none }).delays = [] := by
  constructor
  · exact (withRetry_exhausts_attempts Nat _
      (JsError.raw ⟨"NetworkError", "connect ECONNREFUSED"⟩)
      { maxAttempts := 7, initialDelay := 1000, maxDelay := 5000,
        backoffFactor := 2, retryableErrors := none }
      (by decide) (fun _ => rfl) (by decide)).1
  · exact (withRetry_exhausts_attempts Nat _
      (JsError.raw ⟨"NetworkError", "connect ECONNREFUSED"⟩)
      { maxAttempts := 1, initialDelay := 1000, maxDelay := 5000,
        backoffFactor := 2, retryableErrors := none }
      (by decide) (fun _ => rfl) (by decide)).2.2 rfl

/-- Claim C5: over a run that retries through its whole budget, the delay
slept after attempt `n` (the `n`-th recorded delay) is
`min(initialDelay * backoffFactor^(n-1), maxDelay)`; for a backoff factor
of at least 1 the sequence is monotonically non-decreasing, and every
delay is capped at `maxDelay`. -/
theorem withRetry_backoffDelays (T : Type) (fn : Nat → Except JsError T)
    (e : JsError) (o : RetryOptions) (hN : 1 ≤ o.maxAttempts)
    (hfail : ∀ n, fn n = Except.error e)
    (hret : retryDecision e o.retryableErrors = true) :
    (withRetry T fn o).delays =
      (List.range (o.maxAttempts - 1)).map
        (fun k => min (o.initialDelay * o.backoffFactor ^ k) o.maxDelay) ∧
    (1 ≤ o.backoffFactor → List.Pairwise (· ≤ ·) (withRetry T fn o).delays) ∧
    (∀ d ∈ (withRetry T fn o).delays, d ≤ o.maxDelay) := by
  have h := withRetryLoop_allFail T fn e o hfail hret o.maxAttempts 1 hN le_rfl
    (by omega)
  unfold withRetry
  rw [h]
  dsimp only
  have hrange : List.range' (1 - 1) (o.maxAttempts - 1) = List.range (o.maxAttempts - 1) := by
    rw [List.range_eq_range']
  rw [hrange]
  refine ⟨rfl, fun hbF => ?_, fun d hd => ?_⟩
  · exact (List.pairwise_lt_range _).map _
      (fun a b hab =>
        min_le_min
          (Nat.mul_le_mul_left _ (Nat.pow_le_pow_right hbF (le_of_lt hab))) le_rfl)
  · simp only [List.mem_map] at hd
    obtain ⟨k, -, rfl⟩ := hd
    exact min_le_right _ _

/-- Witness for C5: for `initialDelay = 1000`, `backoffFactor = 2`,
`maxDelay = 5000` and 7 attempts the recorded delay sequence is
`[1000, 2000, 4000, 5000, 5000, 5000]`. -/
theorem withRetry_backoffDelays_witness :
    (withRetry Nat (fun _ => Except.error (JsError.raw ⟨"NetworkError", "connect ECONNREFUSED"⟩))
        { maxAttempts := 7, initialDelay := 1000, maxDelay := 5000,
          backoffFactor := 2, retryableErrors := none }).delays =
      [1000, 2000, 4000, 5000, 5000, 5000] := by
  have h := (withRetry_backoffDelays Nat _
    (JsError.raw ⟨"NetworkError", "connect ECONNREFUSED"⟩)
    { maxAttempts := 7, initialDelay := 1000, maxDelay := 5000,
      backoffFactor := 2, retryableErrors := none }
    (by decide) (fun _ => rfl) (by decide)).1
  rw [h]
  decide

/-- A disabled stage's guard returns at once: `runStage` records success
with zero duration and nothing is thrown. -/
theorem runStage_disabled (s : StageSpec) (h : s.enabled = false) :
    runStage s =
      ({ stage := s.name, status := .success, duration := 0, error := none }, none) := by
  simp [runStage, h]

/-- An enabled stage whose work throws: `runStage` records the failure with
the error's message and re-raises it. -/
theorem runStage_fail (s : StageSpec) (m : String) (he : s.enabled = true)
    (hw : s.work = Except.error m) :
    runStage s =
      ({ stage := s.name, status := .failed, duration := s.workDuration,
         error := some m }, some m) := by
  simp [runStage, he, hw]

/-- A stage that is disabled or whose work completes raises nothing. -/
theorem runStage_noRaise (t : StageSpec)
    (h : t.enabled = false ∨ t.work = Except.ok ()) : (runStage t).2 = none := by
  rcases h with h | h
  · simp [runStage, h]
  · cases he : t.enabled <;> simp [runStage, he, h]

/-- `runStage` never records the `skipped` status. -/
theorem runStage_status_ne_skipped (t : StageSpec) :
    (runStage t).1.status ≠ StageStatus.skipped := by
  cases he : t.enabled
  · simp [runStage, he]
  · cases hw : t.work <;> simp [runStage, he, hw]

/-- When `runStage` re-raises, the record it pushed is a `failed` record
carrying the raised message. -/
theorem runStage_raise_record (s : StageSpec) (m : String)
    (h : (runStage s).2 = some m) :
    (runStage s).1.status = .failed ∧ (runStage s).1.error = some m := by
  cases he : s.enabled
  · simp [runStage, he] at h
  · cases hw : s.work with
    | ok _ => simp [runStage, he, hw] at h
    | error msg =>
      simp only [runStage, he, hw, if_true] at h ⊢
      simp at h
      simp [h]

/-- Prefix of stages that all complete (disabled or successful work): the
loop records each of them and goes on, accumulating the invoked handlers
of the enabled ones. -/
theorem executeStages_append_ok (pre rest : List StageSpec)
    (hpre : ∀ t ∈ pre, t.enabled = false ∨ t.work = Except.ok ()) :
    executeStages (pre ++ rest) =
      { results := pre.map (fun t => (runStage t).1) ++ (executeStages rest).results
        invoked := (pre.filter (fun t => t.enabled)).map (fun t => t.name) ++
          (executeStages rest).invoked
        raised := (executeStages rest).raised } := by
  induction pre with
  | nil => simp
  | cons t ts ih =>
    have h2 := runStage_noRaise t (hpre t (List.mem_cons_self t ts))
    have hih := ih (fun u hu => hpre u (List.mem_cons_of_mem t hu))
    simp only [List.cons_append, executeStages, h2, Option.isSome_none,
      Bool.false_eq_true, if_false, hih]
    cases he : t.enabled <;> simp [he, hih]

/-- If the stage loop ends with a raised message, some pushed record is a
`failed` record with that message. -/
theorem executeStages_raised_mem (stages : List StageSpec) :
    ∀ m, (executeStages stages).raised = some m →
      ∃ r ∈ (executeStages stages).results,
        r.status = StageStatus.failed ∧ r.error = some m := by
  induction stages with
  | nil => intro m h; simp [executeStages] at h
  | cons s rest ih =>
    intro m h
    cases h2 : (runStage s).2 with
    | some m' =>
      simp only [executeStages, h2, Option.isSome_some, if_true,
        Option.some.injEq] at h ⊢
      subst h
      exact ⟨(runStage s).1, by simp, runStage_raise_record s m' h2⟩
    | none =>
      simp only [executeStages, h2, Option.isSome_none, Bool.false_eq_true,
        if_false] at h ⊢
      obtain ⟨r, hrm, hst⟩ := ih m h
      exact ⟨r, List.mem_cons_of_mem _ hrm, hst⟩

/-- `execute` passes the loop's results, invoked list and raised error
through unchanged. -/
theorem execute_fields (ts : Nat) (l : List StageSpec) :
    (execute ts l).results = (executeStages l).results ∧
    (execute ts l).invoked = (executeStages l).invoked ∧
    (execute ts l).raised = (executeStages l).raised := by
  unfold execute
  cases h : (executeStages l).raised <;> simp [h]

/-- The pipeline of C1's and C2's example: keyword scraping succeeds,
article generation throws `"boom"`, site build would succeed. -/
def exFailRun : List StageSpec :=
  [⟨"keyword-scraping", true, Except.ok (), 5⟩,
   ⟨"article-generation", true, Except.error "boom", 7⟩,
   ⟨"site-build", true, Except.ok (), 4⟩]

/-- The pipeline of C3's example: the middle stage is disabled. -/
def exDisabledRun : List StageSpec :=
  [⟨"keyword-scraping", true, Except.ok (), 5⟩,
   ⟨"article-generation", false, Except.ok (), 7⟩,
   ⟨"site-build", true, Except.ok (), 4⟩]

/-- Counterexample for C1: with stages `[A ok, B failing, C ok]` the result
list ends at the failed stage — `C` gets no entry at all, and no entry of
any run ever carries the `skipped` status. -/
theorem orchestrator_noSkip_cex :
    (execute 0 exFailRun).results.map (fun r => r.stage) =
      ["keyword-scraping", "article-generation"] ∧
    ¬ ∃ r ∈ (execute 0 exFailRun).results, r.status = StageStatus.skipped := by
  decide

/-- Claim C1 as amended: when an enabled stage's work throws, that stage is
recorded as `failed` with the error's message, no later handler is
invoked, the failure propagates to the caller — but the stages after the
failed one are not recorded at all (in particular not as `skipped`), and
no report is produced. -/
theorem execute_failFast (ts : Nat) (pre post : List StageSpec) (s : StageSpec)
    (m : String)
    (hpre : ∀ t ∈ pre, t.enabled = false ∨ t.work = Except.ok ())
    (hen : s.enabled = true) (hw : s.work = Except.error m) :
    (execute ts (pre ++ s :: post)).results =
      pre.map (fun t => (runStage t).1) ++
        [{ stage := s.name, status := .failed, duration := s.workDuration,
           error := some m }] ∧
    (execute ts (pre ++ s :: post)).raised = some m ∧
    (execute ts (pre ++ s :: post)).report = none ∧
    (execute ts (pre ++ s :: post)).invoked =
      (pre.filter (fun t => t.enabled)).map (fun t => t.name) ++ [s.name] ∧
    ∀ r ∈ (execute ts (pre ++ s :: post)).results, r.status ≠ StageStatus.skipped := by
  have hs := runStage_fail s m hen hw
  have hfront : executeStages (s :: post) =
      { results := [(⟨s.name, StageStatus.failed, s.workDuration, some m⟩ : PipelineResult)]
        invoked := [s.name]
        raised := some m } := by
    simp [executeStages, hs, hen]
  have happ := executeStages_append_ok pre (s :: post) hpre
  rw [hfront] at happ
  have hex : execute ts (pre ++ s :: post) =
      { results := pre.map (fun t => (runStage t).1) ++
          [(⟨s.name, StageStatus.failed, s.workDuration, some m⟩ : PipelineResult)]
        invoked := (pre.filter (fun t => t.enabled)).map (fun t => t.name) ++ [s.name]
        report := none
        raised := some m } := by
    simp only [execute, happ]
  rw [hex]
  refine ⟨rfl, rfl, rfl, rfl, ?_⟩
  intro r hr
  rcases List.mem_append.mp hr with hr | hr
  · obtain ⟨t, -, rfl⟩ := List.mem_map.mp hr
    exact runStage_status_ne_skipped t
  · rcases List.mem_singleton.mp hr with rfl
    simp

/-- Witness for C1 (amended): in the `[A ok, B failing, C ok]` run only A
and B are recorded, both handlers A and B ran, and `"boom"` propagates. -/
theorem execute_failFast_witness :
    (execute 0 ([⟨"keyword-scraping", true, Except.ok (), 5⟩] ++
        ⟨"article-generation", true, Except.error "boom", 7⟩ ::
          [⟨"site-build", true, Except.ok (), 4⟩])).results =
      [⟨"keyword-scraping", StageStatus.success, 5, none⟩,
       ⟨"article-generation", StageStatus.failed, 7, some "boom"⟩] ∧
    (execute 0 ([⟨"keyword-scraping", true, Except.ok (), 5⟩] ++
        ⟨"article-generation", true, Except.error "boom", 7⟩ ::
          [⟨"site-build", true, Except.ok (), 4⟩])).raised = some "boom" ∧
    (execute 0 ([⟨"keyword-scraping", true, Except.ok (), 5⟩] ++
        ⟨"article-generation", true, Except.error "boom", 7⟩ ::
          [⟨"site-build", true, Except.ok (), 4⟩])).invoked =
      ["keyword-scraping", "article-generation"] := by
  have h := execute_failFast 0 [⟨"keyword-scraping", true, Except.ok (), 5⟩]
    [⟨"site-build", true, Except.ok (), 4⟩]
    ⟨"article-generation", true, Except.error "boom", 7⟩ "boom"
    (by decide) rfl rfl
  refine ⟨?_, h.2.1, ?_⟩
  · rw [h.1]; decide
  · rw [h.2.2.2.1]; decide

/-- Counterexample for C2: the failing `[A ok, B failing, C ok]` run raises
`"boom"` out of `execute` and hands no report to the sink. -/
theorem orchestrator_report_cex :
    (execute 0 exFailRun).raised = some "boom" ∧
    (execute 0 exFailRun).report = none := by
  decide

/-- Claim C2 as amended: a report — timestamp, total duration, per-stage
results, config snapshot — is built and handed to the sink exactly on runs
where no stage failed; on a failed run the exception escapes before
`generateReport`, so no report at all is produced, though the in-memory
result list does record the failed stage with its message. -/
theorem execute_report_policy (ts : Nat) (stages : List StageSpec) :
    ((execute ts stages).raised = none →
      (execute ts stages).report = some
        { timestamp := ts
          totalDuration := ((execute ts stages).results.map (fun r => r.duration)).sum
          stages := (execute ts stages).results
          config := stages }) ∧
    (∀ m, (execute ts stages).raised = some m →
      (execute ts stages).report = none ∧
        ∃ r ∈ (execute ts stages).results,
          r.status = StageStatus.failed ∧ r.error = some m) := by
  obtain ⟨h1, -, h3⟩ := execute_fields ts stages
  constructor
  · intro h
    rw [h3] at h
    have hex : execute ts stages =
        { results := (executeStages stages).results
          invoked := (executeStages stages).invoked
          report := some ⟨ts,
            ((executeStages stages).results.map (fun r => r.duration)).sum,
            (executeStages stages).results, stages⟩
          raised := none } := by
      simp only [execute, h]
    rw [hex]
  · intro m h
    rw [h3] at h
    have hex : execute ts stages =
        { results := (executeStages stages).results
          invoked := (executeStages stages).invoked
          report := none
          raised := some m } := by
      simp only [execute, h]
    rw [hex]
    exact ⟨rfl, executeStages_raised_mem stages m h⟩

/-- Witness for C2 (amended): the all-success run produces the full report,
the failing run produces none yet records the failure. -/
theorem execute_report_policy_witness :
    (execute 0 exDisabledRun).report = some
      { timestamp := 0
        totalDuration := 9
        stages := [⟨"keyword-scraping", StageStatus.success, 5, none⟩,
          ⟨"article-generation", StageStatus.success, 0, none⟩,
          ⟨"site-build", StageStatus.success, 4, none⟩]
        config := exDisabledRun } ∧
    (execute 0 exFailRun).report = none := by
  constructor
  · have h := (execute_report_policy 0 exDisabledRun).1 (by decide)
    rw [h]; decide
  · exact ((execute_report_policy 0 exFailRun).2 "boom" (by decide)).1

/-- Counterexample for C3: with stages `[A enabled, B disabled, C enabled]`
every recorded status is `success` — the disabled stage B is recorded as
`success`, not `skipped` (no run ever records `skipped`). -/
theorem orchestrator_disabled_cex :
    (execute 0 exDisabledRun).results.map (fun r => (r.stage, r.status)) =
      [("keyword-scraping", StageStatus.success),
       ("article-generation", StageStatus.success),
       ("site-build", StageStatus.success)] ∧
    ¬ ∃ r ∈ (execute 0 exDisabledRun).results, r.status = StageStatus.skipped := by
  decide

/-- Claim C3 as amended: a disabled stage's handler returns at its guard —
the external call is never made and the stage takes no time — and the
orchestrator records it with status `success` (not `skipped`) and duration
0, then continues with the next stage. -/
theorem execute_disabledStage (ts : Nat) (pre post : List StageSpec) (s : StageSpec)
    (hdis : s.enabled = false)
    (hpre : ∀ t ∈ pre, t.enabled = false ∨ t.work = Except.ok ()) :
    (execute ts (pre ++ s :: post)).results =
      pre.map (fun t => (runStage t).1) ++
        { stage := s.name, status := .success, duration := 0, error := none } ::
          (executeStages post).results ∧
    (execute ts (pre ++ s :: post)).invoked =
      (pre.filter (fun t => t.enabled)).map (fun t => t.name) ++
        (executeStages post).invoked ∧
    (execute ts (pre ++ s :: post)).raised = (executeStages post).raised := by
  have hs := runStage_disabled s hdis
  have hfront : executeStages (s :: post) =
      { results := (⟨s.name, StageStatus.success, 0, none⟩ : PipelineResult) ::
          (executeStages post).results
        invoked := (executeStages post).invoked
        raised := (executeStages post).raised } := by
    simp [executeStages, hs, hdis]
  have happ := executeStages_append_ok pre (s :: post) hpre
  rw [hfront] at happ
  obtain ⟨h1, h2, h3⟩ := execute_fields ts (pre ++ s :: post)
  rw [h1, h2, h3, happ]
  exact ⟨rfl, rfl, rfl⟩

/-- Witness for C3 (amended): `[A enabled, B disabled, C enabled]` records
A success, B success with duration 0, C success, and only A's and C's
handlers run. -/
theorem execute_disabledStage_witness :
    (execute 0 ([⟨"keyword-scraping", true, Except.ok (), 5⟩] ++
        ⟨"article-generation", false, Except.ok (), 7⟩ ::
          [⟨"site-build", true, Except.ok (), 4⟩])).results =
      [⟨"keyword-scraping", StageStatus.success, 5, none⟩,
       ⟨"article-generation", StageStatus.success, 0, none⟩,
       ⟨"site-build", StageStatus.success, 4, none⟩] ∧
    (execute 0 ([⟨"keyword-scraping", true, Except.ok (), 5⟩] ++
        ⟨"article-generation", false, Except.ok (), 7⟩ ::
          [⟨"site-build", true, Except.ok (), 4⟩])).invoked =
      ["keyword-scraping", "site-build"] := by
  have h := execute_disabledStage 0 [⟨"keyword-scraping", true, Except.ok (), 5⟩]
    [⟨"site-build", true, Except.ok (), 4⟩]
    ⟨"article-generation", false, Except.ok (), 7⟩ rfl (by decide)
  constructor
  · rw [h.1]; decide
  · rw [h.2.1]; decide

end SeoSpy
